import Mathlib

/-!
Shallow embedding of `src/tls/s2n_client_cert_verify.c` (s2n-tls CertificateVerify
send/receive logic), together with spec-modelled versions of the collaborator
interfaces it consumes (stuffer, signature-scheme negotiation, transcript-hash
service, pkey sign/verify, async pkey operation).  C state mutation is modelled
by explicit state passing: every top-level operation takes a connection and
returns the C return code (as `Except`) together with the updated connection,
so mutations made before an early error return persist, exactly as in C.
-/

namespace S2nCertVerify

/-- Error taxonomy of the step, following the spec's error categories; `NullRef`
stands for a failed null-pointer precondition check and `AsyncBlocked` for the
"operation still pending, retry later" control-flow signal. -/
inductive s2n_error where
  | NullRef
  | NegotiationError
  | MalformedMessageError
  | TranscriptStateError
  | VerificationFailure
  | AsyncOperationError
  | AsyncBlocked
  deriving DecidableEq, Repr

instance : DecidableEq (Except s2n_error Unit) := fun a b =>
  match a, b with
  | .ok (), .ok () => isTrue rfl
  | .error e1, .error e2 =>
    if h : e1 = e2 then isTrue (by rw [h]) else isFalse (fun hh => by cases hh; exact h rfl)
  | .ok _, .error _ => isFalse (fun h => by cases h)
  | .error _, .ok _ => isFalse (fun h => by cases h)

/-- Transcript hash algorithms tracked by the handshake (as in s2n). -/
inductive s2n_hash_algorithm where
  | md5
  | sha1
  | sha224
  | sha256
  | sha384
  | sha512
  | md5_sha1
  deriving DecidableEq, Repr

/-- Signature algorithms usable in a signature scheme. -/
inductive s2n_signature_algorithm where
  | anonymous
  | rsa
  | ecdsa
  | rsa_pss_rsae
  | rsa_pss_pss
  deriving DecidableEq, Repr

/-- Kind of the client certificate's public key. -/
inductive s2n_pkey_type where
  | rsa
  | ecdsa
  | unknown
  deriving DecidableEq, Repr

/-- A signature scheme: wire identifier plus the (hash, signature) algorithm pair. -/
structure s2n_signature_scheme where
  iana_value : Nat
  hash_alg : s2n_hash_algorithm
  sig_alg : s2n_signature_algorithm
  deriving DecidableEq, Repr

/-- A hash state: the abstract digest value accumulated so far, plus whether the
state is still live (`ready = true`) or has been finalized/destroyed by a digest
read.  Finalizing is the destructive operation the code guards against by
copying into a workspace first. -/
structure s2n_hash_state where
  digest : Nat
  ready : Bool
  deriving DecidableEq, Repr

/-- The connection's handshake hash container: one running transcript hash state
per algorithm (`none` when that algorithm was never started or was pruned), and
the scratch `hash_workspace` the code copies into before sign/verify. -/
structure s2n_handshake_hashes where
  rows : s2n_hash_algorithm → Option s2n_hash_state
  hash_workspace : s2n_hash_state

/-- A pending asynchronous private-key operation: the signature algorithm and
the digest snapshot it will sign. -/
structure s2n_async_pkey_op where
  sig_alg : s2n_signature_algorithm
  digest_copy : s2n_hash_state
  deriving DecidableEq, Repr

/-- Modelled from the spec: the async signing handle's state machine — an
operation is not started, in flight (`invoked`, holding the registered request),
or finished (`complete`). -/
inductive s2n_async_state where
  | not_invoked
  | invoked (op : s2n_async_pkey_op)
  | complete
  deriving DecidableEq, Repr

/-- Modelled from the spec: the buffer/cursor abstraction ("sequential read/write
of fixed-width integers and raw byte ranges over a handshake I/O buffer; reads
fail if insufficient bytes remain").  `data` is the written region, `read_cursor`
the read position; bytes are interpreted modulo 256 on read. -/
structure s2n_stuffer where
  data : List Nat
  read_cursor : Nat
  deriving DecidableEq, Repr

/-- Bytes still available to read. -/
def s2n_stuffer.available (s : s2n_stuffer) : Nat :=
  s.data.length - s.read_cursor

/-- Big-endian two-byte encoding of `n % 65536`. -/
def u16_bytes (n : Nat) : List Nat :=
  [(n / 256) % 256, n % 256]

/-- Modelled from the spec: read a big-endian `u16`; fails (consuming nothing)
if fewer than two bytes remain. -/
def s2n_stuffer_read_uint16 (s : s2n_stuffer) : Option (Nat × s2n_stuffer) :=
  if s.read_cursor + 2 ≤ s.data.length then
    some ((s.data.getD s.read_cursor 0 % 256) * 256 + s.data.getD (s.read_cursor + 1) 0 % 256,
      { s with read_cursor := s.read_cursor + 2 })
  else
    none

/-- Modelled from the spec: read `n` raw bytes; fails (consuming nothing, the C
function returns NULL) if fewer than `n` bytes remain. -/
def s2n_stuffer_raw_read (s : s2n_stuffer) (n : Nat) : Option (List Nat × s2n_stuffer) :=
  if s.read_cursor + n ≤ s.data.length then
    some ((s.data.drop s.read_cursor).take n, { s with read_cursor := s.read_cursor + n })
  else
    none

/-- Modelled from the spec: append a big-endian `u16` to the buffer. -/
def s2n_stuffer_write_uint16 (s : s2n_stuffer) (n : Nat) : s2n_stuffer :=
  { s with data := s.data ++ u16_bytes n }

/-- Modelled from the spec: append raw bytes to the buffer. -/
def s2n_stuffer_write (s : s2n_stuffer) (b : List Nat) : s2n_stuffer :=
  { s with data := s.data ++ b }

/-- Protocol version constant, as in s2n's version numbering. -/
def S2N_TLS12 : Nat := 33

/-- The connection state visible to this step: protocol version, the handshake
I/O buffer, the handshake hashes (`none` models a NULL `handshake.hashes`
pointer), the `handshake_params` fields the code touches (the stored
`client_cert_sig_scheme`, the peer public key, the accepted scheme list), the
client's own key material and certificate key type for the send path, the async
pkey state, and a count of hash-minimization invocations. -/
structure s2n_connection where
  actual_protocol_version : Nat
  handshake_io_buf : s2n_stuffer
  hashes : Option s2n_handshake_hashes
  client_cert_sig_scheme : s2n_signature_scheme
  client_public_key : Nat
  client_private_key : Nat
  client_cert_pkey_type : s2n_pkey_type
  accepted_sig_schemes : List s2n_signature_scheme
  async_state : s2n_async_state
  async_pkey_backend : Bool
  minimize_count : Nat

/-- Modelled from the spec: `default_scheme_for(version, key_type)` — the
deterministic per-version default signature scheme for the client role,
`none` when no default exists for the key type. -/
def s2n_choose_default_sig_scheme (version : Nat) (kt : s2n_pkey_type) :
    Option s2n_signature_scheme :=
  match version, kt with
  | _, .rsa => some { iana_value := 0x0201, hash_alg := .md5_sha1, sig_alg := .rsa }
  | _, .ecdsa => some { iana_value := 0x0203, hash_alg := .sha1, sig_alg := .ecdsa }
  | _, .unknown => none

/-- Modelled from the spec: membership lookup of a received scheme identifier in
the set of schemes previously offered/accepted for the connection. -/
def s2n_find_accepted_scheme (accepted : List s2n_signature_scheme) (id : Nat) :
    Option s2n_signature_scheme :=
  accepted.find? (fun s => s.iana_value == id)

/-- Numeric code of a signature algorithm, used by the idealized signing primitive. -/
def sig_alg_code : s2n_signature_algorithm → Nat
  | .anonymous => 0
  | .rsa => 1
  | .ecdsa => 3
  | .rsa_pss_rsae => 4
  | .rsa_pss_pss => 5

/-- Modelled from the spec: the idealized signature bytes produced by
`sign(private_key, sig_alg, digest)`.  Verification with the matching public key
(same key value) succeeds exactly on these bytes. -/
def s2n_pkey_sign_bytes (key : Nat) (alg : s2n_signature_algorithm) (digest : Nat) :
    List Nat :=
  [key % 256, (key / 256) % 256, sig_alg_code alg, digest % 256, (digest / 256) % 256]

/-- Modelled from the spec: reading out the final digest destroys the hash
state (`ready` becomes false); fails on a state that is not live. -/
def s2n_hash_digest (st : s2n_hash_state) : Option (Nat × s2n_hash_state) :=
  if st.ready then some (st.digest, { digest := st.digest, ready := false }) else none

/-- Modelled from the spec: `verify(public_key, sig_alg, digest, signature)`.
Finalizes (and therefore mutates) the hash state it is given, returning the
possibly-modified state alongside the verdict. -/
def s2n_pkey_verify (pub : Nat) (alg : s2n_signature_algorithm) (ws : s2n_hash_state)
    (signature : List Nat) : Except s2n_error Unit × s2n_hash_state :=
  match s2n_hash_digest ws with
  | none => (.error .TranscriptStateError, ws)
  | some (d, ws2) =>
    if signature = s2n_pkey_sign_bytes pub alg d then (.ok (), ws2)
    else (.error .VerificationFailure, ws2)

/-- Modelled from the spec: `sign(private_key, sig_alg, digest) -> signature`.
Finalizes (and therefore mutates) the hash state it is given. -/
def s2n_pkey_sign (priv : Nat) (alg : s2n_signature_algorithm) (ws : s2n_hash_state) :
    Except s2n_error (List Nat) × s2n_hash_state :=
  match s2n_hash_digest ws with
  | none => (.error .TranscriptStateError, ws)
  | some (d, ws2) => (.ok (s2n_pkey_sign_bytes priv alg d), ws2)

/-- Modelled from the spec: `minimize_required_algorithms(connection)` prunes
transcript hash algorithms no longer needed by later messages.  Which algorithms
remain needed depends on the rest of the handshake, which is external to this
step; the invocation itself is recorded in `minimize_count`. -/
def s2n_conn_update_required_handshake_hashes (conn : s2n_connection) : s2n_connection :=
  { conn with minimize_count := conn.minimize_count + 1 }

/-- Lines 47–65 of the source: read the 2-byte signature length, then exactly
that many signature bytes, copy the running hash state for the chosen scheme's
hash algorithm into `hash_workspace`, verify the signature over the workspace
with the peer's public key, and on success minimize the required handshake
hashes.  `sch` is the scheme already selected and stored on the connection. -/
def s2n_client_cert_verify_recv_sig (conn : s2n_connection) (sch : s2n_signature_scheme) :
    Except s2n_error Unit × s2n_connection :=
  match conn.hashes with
  | none => (.error .NullRef, conn)
  | some hs =>
    match s2n_stuffer_read_uint16 conn.handshake_io_buf with
    | none => (.error .MalformedMessageError, conn)
    | some (signature_size, io2) =>
      let conn2 := { conn with handshake_io_buf := io2 }
      match s2n_stuffer_raw_read io2 signature_size with
      | none => (.error .MalformedMessageError, conn2)
      | some (signature, io3) =>
        let conn3 := { conn2 with handshake_io_buf := io3 }
        match hs.rows sch.hash_alg with
        | none => (.error .TranscriptStateError, conn3)
        | some st =>
          let hs2 := { hs with hash_workspace := st }
          match s2n_pkey_verify conn3.client_public_key sch.sig_alg hs2.hash_workspace signature with
          | (.error e, ws2) =>
            (.error e, { conn3 with hashes := some { hs2 with hash_workspace := ws2 } })
          | (.ok _, ws2) =>
            let conn4 := { conn3 with hashes := some { hs2 with hash_workspace := ws2 } }
            (.ok (), s2n_conn_update_required_handshake_hashes conn4)

/-- Embedding of `s2n_client_cert_verify_recv` (source lines 32–66): null checks,
then for legacy versions choose the default scheme (no wire bytes), otherwise
read and validate the 2-byte scheme identifier against the accepted set (storing
the result in `handshake_params.client_cert_sig_scheme`), then parse and verify
the signature. -/
def s2n_client_cert_verify_recv_impl (conn : s2n_connection) :
    Except s2n_error Unit × s2n_connection :=
  match conn.hashes with
  | none => (.error .NullRef, conn)
  | some _ =>
    if conn.actual_protocol_version < S2N_TLS12 then
      match s2n_choose_default_sig_scheme conn.actual_protocol_version conn.client_cert_pkey_type with
      | none => (.error .NegotiationError, conn)
      | some sch =>
        s2n_client_cert_verify_recv_sig { conn with client_cert_sig_scheme := sch } sch
    else
      match s2n_stuffer_read_uint16 conn.handshake_io_buf with
      | none => (.error .MalformedMessageError, conn)
      | some (id, io1) =>
        match s2n_find_accepted_scheme conn.accepted_sig_schemes id with
        | none => (.error .NegotiationError, { conn with handshake_io_buf := io1 })
        | some sch =>
          s2n_client_cert_verify_recv_sig
            { conn with handshake_io_buf := io1, client_cert_sig_scheme := sch } sch

/-- Embedding of `s2n_client_cert_verify_send_complete` (source lines 91–102):
write the 2-byte signature length (truncated to `u16` as by the C cast) and the
raw signature bytes, then minimize the required handshake hashes. -/
def s2n_client_cert_verify_send_complete (conn : s2n_connection) (signature : List Nat) :
    Except s2n_error Unit × s2n_connection :=
  let out1 := s2n_stuffer_write_uint16 conn.handshake_io_buf signature.length
  let out2 := s2n_stuffer_write out1 signature
  (.ok (), s2n_conn_update_required_handshake_hashes { conn with handshake_io_buf := out2 })

/-- Lines 83–88 of the source: copy the running hash state for the chosen
scheme's hash algorithm into `hash_workspace`, then `S2N_ASYNC_PKEY_SIGN`:
with an async backend, register the operation and signal `AsyncBlocked`;
otherwise sign synchronously and run `s2n_client_cert_verify_send_complete`. -/
def s2n_client_cert_verify_send_body (conn : s2n_connection) (sch : s2n_signature_scheme) :
    Except s2n_error Unit × s2n_connection :=
  match conn.hashes with
  | none => (.error .NullRef, conn)
  | some hs =>
    match hs.rows sch.hash_alg with
    | none => (.error .TranscriptStateError, conn)
    | some st =>
      let hs2 := { hs with hash_workspace := st }
      let conn2 := { conn with hashes := some hs2 }
      if conn.async_pkey_backend then
        (.error .AsyncBlocked,
          { conn2 with async_state := .invoked { sig_alg := sch.sig_alg, digest_copy := st } })
      else
        match s2n_pkey_sign conn.client_private_key sch.sig_alg hs2.hash_workspace with
        | (.error e, ws2) =>
          (.error e, { conn2 with hashes := some { hs2 with hash_workspace := ws2 } })
        | (.ok signature, ws2) =>
          s2n_client_cert_verify_send_complete
            { conn2 with hashes := some { hs2 with hash_workspace := ws2 } } signature

/-- Embedding of `s2n_client_cert_verify_send` (source lines 68–89): null
checks, then `S2N_ASYNC_PKEY_GUARD` (modelled from the spec: a pending
operation signals the caller to retry, a completed one makes the call succeed
without resubmitting), then for legacy versions choose the default scheme (no
wire bytes written), otherwise write the stored scheme's 2-byte identifier,
then snapshot the hash and sign. -/
def s2n_client_cert_verify_send_impl (conn : s2n_connection) :
    Except s2n_error Unit × s2n_connection :=
  match conn.hashes with
  | none => (.error .NullRef, conn)
  | some _ =>
    match conn.async_state with
    | .invoked _ => (.error .AsyncBlocked, conn)
    | .complete => (.ok (), { conn with async_state := .not_invoked })
    | .not_invoked =>
      if conn.actual_protocol_version < S2N_TLS12 then
        match s2n_choose_default_sig_scheme conn.actual_protocol_version conn.client_cert_pkey_type with
        | none => (.error .NegotiationError, conn)
        | some sch =>
          s2n_client_cert_verify_send_body { conn with client_cert_sig_scheme := sch } sch
      else
        s2n_client_cert_verify_send_body
          { conn with handshake_io_buf :=
              s2n_stuffer_write_uint16 conn.handshake_io_buf conn.client_cert_sig_scheme.iana_value }
          conn.client_cert_sig_scheme

/-- Entry point modelling the C function called on a possibly-NULL connection
pointer: `POSIX_ENSURE_REF(conn)` fails on NULL before anything else happens. -/
def s2n_client_cert_verify_recv (conn : Option s2n_connection) :
    Except s2n_error Unit × Option s2n_connection :=
  match conn with
  | none => (.error .NullRef, none)
  | some c =>
    match s2n_client_cert_verify_recv_impl c with
    | (r, c2) => (r, some c2)

/-- Entry point modelling the C send function called on a possibly-NULL
connection pointer. -/
def s2n_client_cert_verify_send (conn : Option s2n_connection) :
    Except s2n_error Unit × Option s2n_connection :=
  match conn with
  | none => (.error .NullRef, none)
  | some c =>
    match s2n_client_cert_verify_send_impl c with
    | (r, c2) => (r, some c2)

/-- Modelled from the spec: the external resume entry point that applies a
completed async signing result — signs over the registered digest snapshot,
invokes the completion callback exactly once, and marks the handle complete.
Fails if no operation is in flight. -/
def s2n_async_pkey_op_apply (conn : s2n_connection) :
    Except s2n_error Unit × s2n_connection :=
  match conn.async_state with
  | .invoked op =>
    match s2n_pkey_sign conn.client_private_key op.sig_alg op.digest_copy with
    | (.error _, _) => (.error .AsyncOperationError, conn)
    | (.ok signature, _) =>
      s2n_client_cert_verify_send_complete { conn with async_state := .complete } signature
  | _ => (.error .AsyncOperationError, conn)

/-- The connection's running transcript hash table, viewed through the possibly
NULL hashes pointer; the workspace is deliberately not part of this view. -/
def running_hashes (conn : s2n_connection) :
    Option (s2n_hash_algorithm → Option s2n_hash_state) :=
  conn.hashes.map s2n_handshake_hashes.rows

/-! Concrete fixtures used by witnesses and counterexamples. -/

/-- ECDSA/SHA-256 scheme with the standard `0x0403` identifier. -/
def sch_ex : s2n_signature_scheme :=
  { iana_value := 0x0403, hash_alg := .sha256, sig_alg := .ecdsa }

/-- A live SHA-256 running hash state. -/
def st_ex : s2n_hash_state := { digest := 7, ready := true }

/-- Handshake hashes with only SHA-256 running. -/
def hashes_ex : s2n_handshake_hashes :=
  { rows := fun a => if a = .sha256 then some st_ex else none,
    hash_workspace := { digest := 0, ready := false } }

/-- A sender connection, TLS 1.2, synchronous backend, empty outbound buffer,
scheme `sch_ex` already negotiated, private key 5. -/
def send_ok_conn : s2n_connection :=
  { actual_protocol_version := 33,
    handshake_io_buf := { data := [], read_cursor := 0 },
    hashes := some hashes_ex,
    client_cert_sig_scheme := sch_ex,
    client_public_key := 0,
    client_private_key := 5,
    client_cert_pkey_type := .ecdsa,
    accepted_sig_schemes := [],
    async_state := .not_invoked,
    async_pkey_backend := false,
    minimize_count := 0 }

/-- A receiver connection, TLS 1.2, holding exactly the wire bytes the sender
fixture produces (`scheme id 0x0403, length 5, 5 signature bytes`), with the
matching public key and `sch_ex` in the accepted set. -/
def recv_ok_conn : s2n_connection :=
  { actual_protocol_version := 33,
    handshake_io_buf := { data := [4, 3, 0, 5, 5, 0, 3, 7, 0], read_cursor := 0 },
    hashes := some hashes_ex,
    client_cert_sig_scheme := { iana_value := 0, hash_alg := .md5, sig_alg := .anonymous },
    client_public_key := 5,
    client_private_key := 0,
    client_cert_pkey_type := .ecdsa,
    accepted_sig_schemes := [sch_ex],
    async_state := .not_invoked,
    async_pkey_backend := false,
    minimize_count := 0 }

/-- The receiver fixture with the last signature byte flipped. -/
def recv_badsig_conn : s2n_connection :=
  { recv_ok_conn with
    handshake_io_buf := { data := [4, 3, 0, 5, 5, 0, 3, 7, 1], read_cursor := 0 } }

/-- The receiver fixture with an empty accepted-scheme set. -/
def reject_conn : s2n_connection :=
  { recv_ok_conn with accepted_sig_schemes := [] }

/-- The receiver fixture with a NULL `handshake.hashes`. -/
def no_hash_conn : s2n_connection :=
  { recv_ok_conn with hashes := none }

/-- The sender fixture while an async signing operation is in flight. -/
def pending_conn : s2n_connection :=
  { send_ok_conn with async_state := .invoked { sig_alg := .ecdsa, digest_copy := st_ex } }

/-- The sender fixture after the async signing operation completed. -/
def completed_conn : s2n_connection :=
  { send_ok_conn with async_state := .complete }

/-- The sender fixture with no running hash state for any algorithm: the send
path will write the scheme id and then fail to snapshot the transcript hash. -/
def partial_write_conn : s2n_connection :=
  { send_ok_conn with
    hashes := some { rows := fun _ => none, hash_workspace := { digest := 0, ready := false } } }

/-- Inversion for a successful `u16` read: the value is bounded by `65535`, the
cursor advanced by exactly two bytes, and two bytes were available. -/
theorem s2n_stuffer_read_uint16_inv (s : s2n_stuffer) (L : Nat) (s2 : s2n_stuffer)
    (h : s2n_stuffer_read_uint16 s = some (L, s2)) :
    L ≤ 65535 ∧ s2 = { s with read_cursor := s.read_cursor + 2 } ∧
      s.read_cursor + 2 ≤ s.data.length := by
  rw [s2n_stuffer_read_uint16] at h
  split at h
  · injection h with h1
    injection h1 with hL hs
    refine ⟨?_, hs.symm, by assumption⟩
    rw [← hL]
    omega
  · exact Option.noConfusion h

/-- A raw read of more bytes than remain fails. -/
theorem s2n_stuffer_raw_read_none (s : s2n_stuffer) (n : Nat)
    (h : s.available < n) : s2n_stuffer_raw_read s n = none := by
  have hn : ¬ s.read_cursor + n ≤ s.data.length := by
    simp only [s2n_stuffer.available] at h
    omega
  rw [s2n_stuffer_raw_read, if_neg hn]

/-- Inversion for a successful raw read: the bytes are the next `n` bytes, the
cursor advanced by exactly `n`, and `n` bytes were available. -/
theorem s2n_stuffer_raw_read_inv (s : s2n_stuffer) (n : Nat) (b : List Nat) (s2 : s2n_stuffer)
    (h : s2n_stuffer_raw_read s n = some (b, s2)) :
    b = (s.data.drop s.read_cursor).take n ∧
      s2 = { s with read_cursor := s.read_cursor + n } ∧ s.read_cursor + n ≤ s.data.length := by
  rw [s2n_stuffer_raw_read] at h
  split at h
  · injection h with h1
    injection h1 with hb hs
    exact ⟨hb.symm, hs.symm, by assumption⟩
  · exact Option.noConfusion h

/-- C10: calling the receive or send path with a null connection, or with a
connection whose `handshake.hashes` is null, returns an error immediately, with
no bytes read from or written to the handshake I/O buffer and no connection
state modified. -/
theorem claim_C10_null_checks :
    s2n_client_cert_verify_recv none = (.error .NullRef, none) ∧
    s2n_client_cert_verify_send none = (.error .NullRef, none) ∧
    ∀ c : s2n_connection, c.hashes = none →
      s2n_client_cert_verify_recv (some c) = (.error .NullRef, some c) ∧
      s2n_client_cert_verify_send (some c) = (.error .NullRef, some c) := by
  refine ⟨rfl, rfl, fun c hc => ?_⟩
  constructor <;>
    simp [s2n_client_cert_verify_recv, s2n_client_cert_verify_send,
      s2n_client_cert_verify_recv_impl, s2n_client_cert_verify_send_impl, hc]

/-- Witness for C10 at a concrete connection with a NULL hashes pointer. -/
theorem claim_C10_null_checks_witness :
    no_hash_conn.hashes = none ∧
    s2n_client_cert_verify_recv (some no_hash_conn) = (.error .NullRef, some no_hash_conn) ∧
    s2n_client_cert_verify_send (some no_hash_conn) = (.error .NullRef, some no_hash_conn) :=
  ⟨rfl, (claim_C10_null_checks.2.2 no_hash_conn rfl).1,
    (claim_C10_null_checks.2.2 no_hash_conn rfl).2⟩

/-- C7: while an async signing operation is pending, re-invoking the send path
returns the retry signal and leaves the connection completely unchanged (no
second signing operation, no renegotiation, no scheme-id write, no snapshot);
after completion, re-invoking succeeds, only resetting the async handle. -/
theorem claim_C7_async_reentry (conn : s2n_connection) (hs : s2n_handshake_hashes)
    (hhs : conn.hashes = some hs) :
    (∀ op, conn.async_state = .invoked op →
      s2n_client_cert_verify_send_impl conn = (.error .AsyncBlocked, conn)) ∧
    (conn.async_state = .complete →
      s2n_client_cert_verify_send_impl conn =
        (.ok (), { conn with async_state := .not_invoked })) := by
  constructor
  · intro op hop
    simp [s2n_client_cert_verify_send_impl, hhs, hop]
  · intro hc
    simp [s2n_client_cert_verify_send_impl, hhs, hc]

/-- Witness for C7 at concrete pending and completed connections. -/
theorem claim_C7_async_reentry_witness :
    pending_conn.hashes = some hashes_ex ∧
    pending_conn.async_state = .invoked { sig_alg := .ecdsa, digest_copy := st_ex } ∧
    s2n_client_cert_verify_send_impl pending_conn = (.error .AsyncBlocked, pending_conn) ∧
    completed_conn.async_state = .complete ∧
    s2n_client_cert_verify_send_impl completed_conn =
      (.ok (), { completed_conn with async_state := .not_invoked }) :=
  ⟨rfl, rfl,
    (claim_C7_async_reentry pending_conn hashes_ex rfl).1 _ rfl,
    rfl,
    (claim_C7_async_reentry completed_conn hashes_ex rfl).2 rfl⟩

/-- C4: on the receive path at TLS 1.2 or later, a scheme identifier outside
the accepted set yields a negotiation error with the connection state otherwise
untouched: only the two identifier bytes were consumed, no signature length or
signature bytes were read, no verification was attempted, and no minimization
ran. -/
theorem claim_C4_reject_unknown_scheme (conn : s2n_connection) (hs : s2n_handshake_hashes)
    (id : Nat) (io1 : s2n_stuffer)
    (hhs : conn.hashes = some hs)
    (hv : ¬ conn.actual_protocol_version < S2N_TLS12)
    (hread : s2n_stuffer_read_uint16 conn.handshake_io_buf = some (id, io1))
    (hfind : s2n_find_accepted_scheme conn.accepted_sig_schemes id = none) :
    s2n_client_cert_verify_recv_impl conn =
      (.error .NegotiationError, { conn with handshake_io_buf := io1 }) := by
  simp [s2n_client_cert_verify_recv_impl, hhs, hv, hread, hfind]

/-- Witness for C4 at a concrete connection with an empty accepted set. -/
theorem claim_C4_reject_unknown_scheme_witness :
    s2n_find_accepted_scheme reject_conn.accepted_sig_schemes 1027 = none ∧
    s2n_client_cert_verify_recv_impl reject_conn =
      (.error .NegotiationError,
        { reject_conn with
          handshake_io_buf := { data := [4, 3, 0, 5, 5, 0, 3, 7, 0], read_cursor := 2 } }) :=
  ⟨rfl,
    claim_C4_reject_unknown_scheme reject_conn hashes_ex 1027
      { data := [4, 3, 0, 5, 5, 0, 3, 7, 0], read_cursor := 2 }
      rfl (by decide) rfl rfl⟩

/-- C2: neither the receive path nor the send path ever modifies any of the
connection's live running transcript hash states (in particular not the one for
the chosen scheme's hash algorithm): the digest computation is applied only to
the copied `hash_workspace`. -/
theorem claim_C2_transcript_isolation (conn : s2n_connection) :
    running_hashes (s2n_client_cert_verify_recv_impl conn).2 = running_hashes conn ∧
    running_hashes (s2n_client_cert_verify_send_impl conn).2 = running_hashes conn := by
  constructor
  · simp only [s2n_client_cert_verify_recv_impl, s2n_client_cert_verify_recv_sig]
    repeat' split
    all_goals simp_all [running_hashes, s2n_conn_update_required_handshake_hashes]
  · simp only [s2n_client_cert_verify_send_impl, s2n_client_cert_verify_send_body,
      s2n_client_cert_verify_send_complete]
    repeat' split
    all_goals simp_all [running_hashes, s2n_conn_update_required_handshake_hashes]

/-- C3: on the receive path, hash-algorithm minimization runs exactly when the
whole operation (signature verification included) succeeds: a successful call
increments the minimization count by one, any error — verification failure
included — leaves it untouched. -/
theorem claim_C3_minimize_iff_success (conn : s2n_connection) :
    ((s2n_client_cert_verify_recv_impl conn).1 = .ok () →
      (s2n_client_cert_verify_recv_impl conn).2.minimize_count = conn.minimize_count + 1) ∧
    ((s2n_client_cert_verify_recv_impl conn).1 ≠ .ok () →
      (s2n_client_cert_verify_recv_impl conn).2.minimize_count = conn.minimize_count) := by
  simp only [s2n_client_cert_verify_recv_impl, s2n_client_cert_verify_recv_sig]
  repeat' split
  all_goals simp_all [s2n_conn_update_required_handshake_hashes]

/-- Witness for C3 at the concrete receiver fixture with the last signature
byte flipped: verification fails and the minimization count stays at zero. -/
theorem claim_C3_minimize_iff_success_witness :
    (s2n_client_cert_verify_recv_impl recv_badsig_conn).1 = .error .VerificationFailure ∧
    (s2n_client_cert_verify_recv_impl recv_badsig_conn).2.minimize_count =
      recv_badsig_conn.minimize_count :=
  ⟨rfl, (claim_C3_minimize_iff_success recv_badsig_conn).2 (by decide)⟩

/-- Counterexample to C8: at TLS 1.2 with no running hash state for the chosen
scheme's algorithm, the send path writes the two scheme-id bytes and then fails
the transcript-hash snapshot, leaving a truncated message (a scheme id with no
length and no signature) in the previously empty outbound buffer. -/
theorem claim_C8_counterexample :
    (s2n_client_cert_verify_send_impl partial_write_conn).1 = .error .TranscriptStateError ∧
    (s2n_client_cert_verify_send_impl partial_write_conn).2.handshake_io_buf.data = [4, 3] ∧
    partial_write_conn.handshake_io_buf.data = [] :=
  ⟨rfl, rfl, rfl⟩

/-- C8 as amended: when the send path or its completion returns an error, the
outbound handshake buffer is either completely unchanged, or (only at TLS 1.2
or later, where the scheme id is serialized before the snapshot and signing
steps) extended by exactly the 2-byte scheme identifier; the completion step
always writes length and signature together. -/
theorem claim_C8_amended_partial_writes (conn : s2n_connection) (e : s2n_error)
    (c2 : s2n_connection)
    (h : s2n_client_cert_verify_send_impl conn = (.error e, c2)) :
    c2.handshake_io_buf.data = conn.handshake_io_buf.data ∨
      (¬ conn.actual_protocol_version < S2N_TLS12 ∧
        c2.handshake_io_buf.data =
          conn.handshake_io_buf.data ++ u16_bytes conn.client_cert_sig_scheme.iana_value) := by
  simp only [s2n_client_cert_verify_send_impl, s2n_client_cert_verify_send_body,
    s2n_client_cert_verify_send_complete, s2n_stuffer_write_uint16, s2n_stuffer_write,
    s2n_conn_update_required_handshake_hashes] at h
  repeat' split at h
  all_goals injection h with h1 h2
  all_goals try exact Except.noConfusion h1
  all_goals subst h2
  all_goals simp_all

/-- Witness for the amended C8 at the concrete partial-write connection. -/
theorem claim_C8_amended_partial_writes_witness :
    (s2n_client_cert_verify_send_impl partial_write_conn).2.handshake_io_buf.data =
        partial_write_conn.handshake_io_buf.data ∨
      (¬ partial_write_conn.actual_protocol_version < S2N_TLS12 ∧
        (s2n_client_cert_verify_send_impl partial_write_conn).2.handshake_io_buf.data =
          partial_write_conn.handshake_io_buf.data ++
            u16_bytes partial_write_conn.client_cert_sig_scheme.iana_value) :=
  claim_C8_amended_partial_writes partial_write_conn .TranscriptStateError
    (s2n_client_cert_verify_send_impl partial_write_conn).2 rfl

/-- Counterexample to C9: a successful receive call stores the chosen scheme in
the connection's persistent `handshake_params.client_cert_sig_scheme` field
(changing its previous value) and leaves the finalized transcript-hash snapshot
in the persistent `hash_workspace` field, so both outlive the call. -/
theorem claim_C9_counterexample :
    (s2n_client_cert_verify_recv_impl recv_ok_conn).1 = .ok () ∧
    (s2n_client_cert_verify_recv_impl recv_ok_conn).2.client_cert_sig_scheme = sch_ex ∧
    recv_ok_conn.client_cert_sig_scheme ≠ sch_ex ∧
    (s2n_client_cert_verify_recv_impl recv_ok_conn).2.hashes.map
        s2n_handshake_hashes.hash_workspace = some { digest := 7, ready := false } ∧
    recv_ok_conn.hashes.map s2n_handshake_hashes.hash_workspace =
      some { digest := 0, ready := false } :=
  ⟨rfl, rfl, by decide, rfl, rfl⟩

/-- Retention through the receive path's signature stage: the scheme field the
caller stored is untouched afterwards, and on success the persistent
`hash_workspace` holds the finalized snapshot of the running hash state. -/
theorem recv_sig_retains (conn : s2n_connection) (hs : s2n_handshake_hashes)
    (sch : s2n_signature_scheme) (st : s2n_hash_state)
    (hhs : conn.hashes = some hs) (hst : hs.rows sch.hash_alg = some st) :
    (s2n_client_cert_verify_recv_sig conn sch).2.client_cert_sig_scheme =
      conn.client_cert_sig_scheme ∧
    ((s2n_client_cert_verify_recv_sig conn sch).1 = .ok () →
      (s2n_client_cert_verify_recv_sig conn sch).2.hashes.map
          s2n_handshake_hashes.hash_workspace =
        some { digest := st.digest, ready := false }) := by
  simp only [s2n_client_cert_verify_recv_sig, hhs]
  repeat' split
  all_goals simp_all [s2n_pkey_verify, s2n_hash_digest,
    s2n_conn_update_required_handshake_hashes]
  all_goals
    rename_i heq
    by_cases hr : st.ready = true
    · simp [hr] at heq
      split at heq <;> simp_all
    · simp [hr] at heq

/-- Retention through the send path's snapshot-and-sign stage: the scheme field
the caller stored is untouched afterwards, and on (synchronous) success the
persistent `hash_workspace` holds the finalized snapshot. -/
theorem send_body_retains (conn : s2n_connection) (hs : s2n_handshake_hashes)
    (sch : s2n_signature_scheme) (st : s2n_hash_state)
    (hhs : conn.hashes = some hs) (hst : hs.rows sch.hash_alg = some st) :
    (s2n_client_cert_verify_send_body conn sch).2.client_cert_sig_scheme =
      conn.client_cert_sig_scheme ∧
    ((s2n_client_cert_verify_send_body conn sch).1 = .ok () →
      (s2n_client_cert_verify_send_body conn sch).2.hashes.map
          s2n_handshake_hashes.hash_workspace =
        some { digest := st.digest, ready := false }) := by
  simp only [s2n_client_cert_verify_send_body, s2n_client_cert_verify_send_complete, hhs]
  repeat' split
  all_goals simp_all [s2n_pkey_sign, s2n_hash_digest,
    s2n_conn_update_required_handshake_hashes]
  all_goals
    rename_i heq
    by_cases hr : st.ready = true
    · simp [hr] at heq
      exact heq.2.symm
    · simp [hr] at heq

/-- C9 as amended: on every path — receive or send, legacy or TLS 1.2+ — once
a scheme is selected it is retained, after the call returns, in the
connection's persistent `handshake_params.client_cert_sig_scheme` field
(regardless of the call's outcome), and on success the persistent
`hash_workspace` retains the finalized snapshot of the running hash state that
was copied. -/
theorem claim_C9_amended_retained (conn : s2n_connection) (hs : s2n_handshake_hashes)
    (hhs : conn.hashes = some hs) :
    (∀ sch st, conn.actual_protocol_version < S2N_TLS12 →
      s2n_choose_default_sig_scheme conn.actual_protocol_version conn.client_cert_pkey_type =
        some sch →
      hs.rows sch.hash_alg = some st →
      (s2n_client_cert_verify_recv_impl conn).2.client_cert_sig_scheme = sch ∧
      ((s2n_client_cert_verify_recv_impl conn).1 = .ok () →
        (s2n_client_cert_verify_recv_impl conn).2.hashes.map
            s2n_handshake_hashes.hash_workspace =
          some { digest := st.digest, ready := false })) ∧
    (∀ id io1 sch st, ¬ conn.actual_protocol_version < S2N_TLS12 →
      s2n_stuffer_read_uint16 conn.handshake_io_buf = some (id, io1) →
      s2n_find_accepted_scheme conn.accepted_sig_schemes id = some sch →
      hs.rows sch.hash_alg = some st →
      (s2n_client_cert_verify_recv_impl conn).2.client_cert_sig_scheme = sch ∧
      ((s2n_client_cert_verify_recv_impl conn).1 = .ok () →
        (s2n_client_cert_verify_recv_impl conn).2.hashes.map
            s2n_handshake_hashes.hash_workspace =
          some { digest := st.digest, ready := false })) ∧
    (∀ sch st, conn.async_state = .not_invoked →
      conn.actual_protocol_version < S2N_TLS12 →
      s2n_choose_default_sig_scheme conn.actual_protocol_version conn.client_cert_pkey_type =
        some sch →
      hs.rows sch.hash_alg = some st →
      (s2n_client_cert_verify_send_impl conn).2.client_cert_sig_scheme = sch ∧
      ((s2n_client_cert_verify_send_impl conn).1 = .ok () →
        (s2n_client_cert_verify_send_impl conn).2.hashes.map
            s2n_handshake_hashes.hash_workspace =
          some { digest := st.digest, ready := false })) ∧
    (∀ st, conn.async_state = .not_invoked →
      ¬ conn.actual_protocol_version < S2N_TLS12 →
      hs.rows conn.client_cert_sig_scheme.hash_alg = some st →
      (s2n_client_cert_verify_send_impl conn).2.client_cert_sig_scheme =
        conn.client_cert_sig_scheme ∧
      ((s2n_client_cert_verify_send_impl conn).1 = .ok () →
        (s2n_client_cert_verify_send_impl conn).2.hashes.map
            s2n_handshake_hashes.hash_workspace =
          some { digest := st.digest, ready := false })) := by
  refine ⟨?_, ?_, ?_, ?_⟩
  · intro sch st hv hdef hst
    have hred : s2n_client_cert_verify_recv_impl conn =
        s2n_client_cert_verify_recv_sig { conn with client_cert_sig_scheme := sch } sch := by
      simp [s2n_client_cert_verify_recv_impl, hhs, hv, hdef]
    rw [hred]
    exact recv_sig_retains { conn with client_cert_sig_scheme := sch } hs sch st hhs hst
  · intro id io1 sch st hv hread hfind hst
    have hred : s2n_client_cert_verify_recv_impl conn =
        s2n_client_cert_verify_recv_sig
          { conn with handshake_io_buf := io1, client_cert_sig_scheme := sch } sch := by
      simp [s2n_client_cert_verify_recv_impl, hhs, hv, hread, hfind]
    rw [hred]
    exact recv_sig_retains
      { conn with handshake_io_buf := io1, client_cert_sig_scheme := sch } hs sch st hhs hst
  · intro sch st hna hv hdef hst
    have hred : s2n_client_cert_verify_send_impl conn =
        s2n_client_cert_verify_send_body { conn with client_cert_sig_scheme := sch } sch := by
      simp [s2n_client_cert_verify_send_impl, hhs, hna, hv, hdef]
    rw [hred]
    exact send_body_retains { conn with client_cert_sig_scheme := sch } hs sch st hhs hst
  · intro st hna hv hst
    have hred : s2n_client_cert_verify_send_impl conn =
        s2n_client_cert_verify_send_body
          { conn with handshake_io_buf :=
              (s2n_stuffer_write_uint16 conn.handshake_io_buf
                conn.client_cert_sig_scheme.iana_value) }
          conn.client_cert_sig_scheme := by
      simp [s2n_client_cert_verify_send_impl, hhs, hna, hv]
    rw [hred]
    exact send_body_retains
      { conn with handshake_io_buf :=
          (s2n_stuffer_write_uint16 conn.handshake_io_buf
            conn.client_cert_sig_scheme.iana_value) }
      hs conn.client_cert_sig_scheme st hhs hst

/-- Witness for the amended C9 at the concrete successful TLS 1.2 receiver and
sender fixtures. -/
theorem claim_C9_amended_retained_witness :
    ((s2n_client_cert_verify_recv_impl recv_ok_conn).2.client_cert_sig_scheme = sch_ex ∧
      ((s2n_client_cert_verify_recv_impl recv_ok_conn).1 = .ok () →
        (s2n_client_cert_verify_recv_impl recv_ok_conn).2.hashes.map
            s2n_handshake_hashes.hash_workspace =
          some { digest := st_ex.digest, ready := false })) ∧
    ((s2n_client_cert_verify_send_impl send_ok_conn).2.client_cert_sig_scheme =
        send_ok_conn.client_cert_sig_scheme ∧
      ((s2n_client_cert_verify_send_impl send_ok_conn).1 = .ok () →
        (s2n_client_cert_verify_send_impl send_ok_conn).2.hashes.map
            s2n_handshake_hashes.hash_workspace =
          some { digest := st_ex.digest, ready := false })) :=
  ⟨(claim_C9_amended_retained recv_ok_conn hashes_ex rfl).2.1
      1027 { data := [4, 3, 0, 5, 5, 0, 3, 7, 0], read_cursor := 2 } sch_ex st_ex
      (by decide) rfl rfl rfl,
    (claim_C9_amended_retained send_ok_conn hashes_ex rfl).2.2.2
      st_ex rfl (by decide) rfl⟩

/-- C5: in the signature-parsing stage of the receive path (reached from both
version branches of `s2n_client_cert_verify_recv_impl`), after the 2-byte
big-endian length `L` is read, the declared length is at most `65535`; if fewer
than `L` bytes remain, the call fails with a malformed-message error having
consumed nothing beyond the length field; and on success the cursor advanced by
exactly `L` bytes past the length field, so exactly `L` signature bytes were
read. -/
theorem claim_C5_signature_length (conn : s2n_connection) (hs : s2n_handshake_hashes)
    (sch : s2n_signature_scheme) (L : Nat) (io2 : s2n_stuffer)
    (hhs : conn.hashes = some hs)
    (hread : s2n_stuffer_read_uint16 conn.handshake_io_buf = some (L, io2)) :
    L ≤ 65535 ∧
    (io2.available < L →
      s2n_client_cert_verify_recv_sig conn sch =
        (.error .MalformedMessageError, { conn with handshake_io_buf := io2 })) ∧
    (∀ r c2, s2n_client_cert_verify_recv_sig conn sch = (r, c2) → r = .ok () →
      c2.handshake_io_buf.read_cursor = io2.read_cursor + L) := by
  obtain ⟨hb, -, -⟩ := s2n_stuffer_read_uint16_inv _ _ _ hread
  refine ⟨hb, ?_, ?_⟩
  · intro hav
    simp only [s2n_client_cert_verify_recv_sig, hhs, hread,
      s2n_stuffer_raw_read_none io2 L hav]
  · intro r c2 hrc hr
    subst hr
    rcases hraw : s2n_stuffer_raw_read io2 L with _ | ⟨sigb, io3⟩
    · simp [s2n_client_cert_verify_recv_sig, hhs, hread, hraw] at hrc
    · rcases hrows : hs.rows sch.hash_alg with _ | st
      · simp [s2n_client_cert_verify_recv_sig, hhs, hread, hraw, hrows] at hrc
      · rcases hver : s2n_pkey_verify conn.client_public_key sch.sig_alg st sigb with ⟨res, ws2⟩
        obtain ⟨-, hio3, -⟩ := s2n_stuffer_raw_read_inv _ _ _ _ hraw
        cases res with
        | error e =>
          simp [s2n_client_cert_verify_recv_sig, hhs, hread, hraw, hrows, hver] at hrc
        | ok u =>
          simp only [s2n_client_cert_verify_recv_sig, hhs, hread, hraw, hrows, hver,
            s2n_conn_update_required_handshake_hashes] at hrc
          injection hrc with h1 h2
          subst h2
          rw [hio3]

/-- Witness for C5 at a concrete truncated input: a declared length of 5 with
only two bytes remaining. -/
theorem claim_C5_signature_length_witness :
    (5 : Nat) ≤ 65535 ∧
    (s2n_stuffer.available { data := [0, 5, 9, 9], read_cursor := 2 } < 5 →
      s2n_client_cert_verify_recv_sig
          { recv_ok_conn with handshake_io_buf := { data := [0, 5, 9, 9], read_cursor := 0 } }
          sch_ex =
        (.error .MalformedMessageError,
          { recv_ok_conn with handshake_io_buf := { data := [0, 5, 9, 9], read_cursor := 2 } })) ∧
    (∀ r c2,
      s2n_client_cert_verify_recv_sig
          { recv_ok_conn with handshake_io_buf := { data := [0, 5, 9, 9], read_cursor := 0 } }
          sch_ex = (r, c2) → r = .ok () →
      c2.handshake_io_buf.read_cursor = s2n_stuffer.read_cursor { data := [0, 5, 9, 9], read_cursor := 2 } + 5) :=
  claim_C5_signature_length
    { recv_ok_conn with handshake_io_buf := { data := [0, 5, 9, 9], read_cursor := 0 } }
    hashes_ex sch_ex 5 { data := [0, 5, 9, 9], read_cursor := 2 } rfl rfl

/-- C6: for a legacy (pre-TLS 1.2) connection both paths use the deterministic
version/key-type default scheme and touch no scheme bytes on the wire — the
receive path proceeds to signature parsing with its input buffer unchanged and
the send path proceeds to signing with its output buffer unchanged, each with
the default scheme stored; for TLS 1.2 or later the receive path consumes and
validates exactly the 2-byte scheme id (rejecting ids outside the accepted
set) and the send path appends exactly the stored scheme's 2-byte id. -/
theorem claim_C6_version_branching (conn : s2n_connection) (hs : s2n_handshake_hashes)
    (hhs : conn.hashes = some hs) :
    (∀ sch, conn.actual_protocol_version < S2N_TLS12 →
      s2n_choose_default_sig_scheme conn.actual_protocol_version conn.client_cert_pkey_type =
        some sch →
      s2n_client_cert_verify_recv_impl conn =
        s2n_client_cert_verify_recv_sig { conn with client_cert_sig_scheme := sch } sch ∧
      (conn.async_state = .not_invoked →
        s2n_client_cert_verify_send_impl conn =
          s2n_client_cert_verify_send_body { conn with client_cert_sig_scheme := sch } sch)) ∧
    (¬ conn.actual_protocol_version < S2N_TLS12 →
      (∀ id io1, s2n_stuffer_read_uint16 conn.handshake_io_buf = some (id, io1) →
        io1 = { conn.handshake_io_buf with
                  read_cursor := conn.handshake_io_buf.read_cursor + 2 } ∧
        (∀ sch, s2n_find_accepted_scheme conn.accepted_sig_schemes id = some sch →
          s2n_client_cert_verify_recv_impl conn =
            s2n_client_cert_verify_recv_sig
              { conn with handshake_io_buf := io1, client_cert_sig_scheme := sch } sch) ∧
        (s2n_find_accepted_scheme conn.accepted_sig_schemes id = none →
          s2n_client_cert_verify_recv_impl conn =
            (.error .NegotiationError, { conn with handshake_io_buf := io1 }))) ∧
      (conn.async_state = .not_invoked →
        s2n_client_cert_verify_send_impl conn =
          s2n_client_cert_verify_send_body
            { conn with handshake_io_buf :=
                (s2n_stuffer_write_uint16 conn.handshake_io_buf
                  conn.client_cert_sig_scheme.iana_value) }
            conn.client_cert_sig_scheme ∧
        (s2n_stuffer_write_uint16 conn.handshake_io_buf
            conn.client_cert_sig_scheme.iana_value).data =
          conn.handshake_io_buf.data ++
            u16_bytes conn.client_cert_sig_scheme.iana_value)) := by
  constructor
  · intro sch hv hdef
    constructor
    · simp [s2n_client_cert_verify_recv_impl, hhs, hv, hdef]
    · intro hna
      simp [s2n_client_cert_verify_send_impl, hhs, hv, hdef, hna]
  · intro hv
    constructor
    · intro id io1 hread
      obtain ⟨-, hio1, -⟩ := s2n_stuffer_read_uint16_inv _ _ _ hread
      refine ⟨hio1, ?_, ?_⟩
      · intro sch hfind
        simp [s2n_client_cert_verify_recv_impl, hhs, hv, hread, hfind]
      · intro hfind
        simp [s2n_client_cert_verify_recv_impl, hhs, hv, hread, hfind]
    · intro hna
      constructor
      · simp [s2n_client_cert_verify_send_impl, hhs, hv, hna]
      · simp [s2n_stuffer_write_uint16]

/-- Witness for C6 at a concrete legacy (TLS 1.1) connection and at the
concrete TLS 1.2 sender and receiver fixtures. -/
theorem claim_C6_version_branching_witness :
    (s2n_client_cert_verify_recv_impl { recv_ok_conn with actual_protocol_version := 32 } =
      s2n_client_cert_verify_recv_sig
        { { recv_ok_conn with actual_protocol_version := 32 } with
          client_cert_sig_scheme :=
            { iana_value := 0x0203, hash_alg := .sha1, sig_alg := .ecdsa } }
        { iana_value := 0x0203, hash_alg := .sha1, sig_alg := .ecdsa }) ∧
    (s2n_client_cert_verify_send_impl send_ok_conn =
      s2n_client_cert_verify_send_body
        { send_ok_conn with handshake_io_buf :=
            (s2n_stuffer_write_uint16 send_ok_conn.handshake_io_buf
              send_ok_conn.client_cert_sig_scheme.iana_value) }
        send_ok_conn.client_cert_sig_scheme) :=
  ⟨((claim_C6_version_branching { recv_ok_conn with actual_protocol_version := 32 }
      hashes_ex rfl).1
      { iana_value := 0x0203, hash_alg := .sha1, sig_alg := .ecdsa }
      (by decide) rfl).1,
    (((claim_C6_version_branching send_ok_conn hashes_ex rfl).2 (by decide)).2 rfl).1⟩

/-- C1: round trip — for every valid signature scheme and key pair, the bytes
produced by the send path (optional 2-byte scheme id at TLS 1.2+, then 2-byte
signature length, then the signature), fed as input to the receive path on a
matching connection (same version branch, matching default or accepted scheme,
same running transcript hash state for the scheme's algorithm, and the public
key matching the sender's private key), parse and verify successfully. -/
theorem claim_C1_roundtrip (S R : s2n_connection) (hsS hsR : s2n_handshake_hashes)
    (sch : s2n_signature_scheme) (st : s2n_hash_state)
    (hS : S.hashes = some hsS) (hR : R.hashes = some hsR)
    (hasync : S.async_state = .not_invoked) (hback : S.async_pkey_backend = false)
    (hout : S.handshake_io_buf = { data := [], read_cursor := 0 })
    (hscheme :
      (S.actual_protocol_version < S2N_TLS12 ∧ R.actual_protocol_version < S2N_TLS12 ∧
        s2n_choose_default_sig_scheme S.actual_protocol_version S.client_cert_pkey_type =
          some sch ∧
        s2n_choose_default_sig_scheme R.actual_protocol_version R.client_cert_pkey_type =
          some sch) ∨
      (¬ S.actual_protocol_version < S2N_TLS12 ∧ ¬ R.actual_protocol_version < S2N_TLS12 ∧
        S.client_cert_sig_scheme = sch ∧ sch.iana_value < 65536 ∧
        s2n_find_accepted_scheme R.accepted_sig_schemes sch.iana_value = some sch))
    (hstS : hsS.rows sch.hash_alg = some st) (hstR : hsR.rows sch.hash_alg = some st)
    (hready : st.ready = true)
    (hkey : R.client_public_key = S.client_private_key)
    (hin : R.handshake_io_buf =
      { data := (s2n_client_cert_verify_send_impl S).2.handshake_io_buf.data,
        read_cursor := 0 }) :
    (s2n_client_cert_verify_send_impl S).1 = .ok () ∧
    (s2n_client_cert_verify_recv_impl R).1 = .ok () := by
  rcases hscheme with ⟨hvS, hvR, hdefS, hdefR⟩ | ⟨hvS, hvR, hsch, hiana, hfind⟩
  · -- legacy versions: no scheme bytes on the wire
    have h1 : (s2n_client_cert_verify_send_impl S).1 = .ok () := by
      simp [s2n_client_cert_verify_send_impl, s2n_client_cert_verify_send_body,
        s2n_client_cert_verify_send_complete, hS, hasync, hback, hvS, hdefS, hstS,
        s2n_pkey_sign, s2n_hash_digest, hready, s2n_conn_update_required_handshake_hashes]
    have hdata : (s2n_client_cert_verify_send_impl S).2.handshake_io_buf.data =
        0 :: 5 :: S.client_private_key % 256 :: (S.client_private_key / 256) % 256 ::
          sig_alg_code sch.sig_alg :: st.digest % 256 :: (st.digest / 256) % 256 :: [] := by
      simp [s2n_client_cert_verify_send_impl, s2n_client_cert_verify_send_body,
        s2n_client_cert_verify_send_complete, hS, hasync, hback, hvS, hdefS, hstS, hout,
        s2n_pkey_sign, s2n_hash_digest, hready, s2n_conn_update_required_handshake_hashes,
        s2n_stuffer_write_uint16, s2n_stuffer_write, u16_bytes, s2n_pkey_sign_bytes]
    rw [hdata] at hin
    have h2 : (s2n_client_cert_verify_recv_impl R).1 = .ok () := by
      simp [s2n_client_cert_verify_recv_impl, s2n_client_cert_verify_recv_sig, hR, hvR,
        hdefR, hin, hstR, s2n_stuffer_read_uint16, s2n_stuffer_raw_read, s2n_pkey_verify,
        s2n_hash_digest, hready, hkey, s2n_pkey_sign_bytes,
        s2n_conn_update_required_handshake_hashes]
    exact ⟨h1, h2⟩
  · -- TLS 1.2+: the 2-byte scheme id travels on the wire
    subst hsch
    have h1 : (s2n_client_cert_verify_send_impl S).1 = .ok () := by
      simp [s2n_client_cert_verify_send_impl, s2n_client_cert_verify_send_body,
        s2n_client_cert_verify_send_complete, hS, hasync, hback, hvS, hstS,
        s2n_pkey_sign, s2n_hash_digest, hready, s2n_conn_update_required_handshake_hashes]
    have hdata : (s2n_client_cert_verify_send_impl S).2.handshake_io_buf.data =
        (S.client_cert_sig_scheme.iana_value / 256) % 256 ::
          S.client_cert_sig_scheme.iana_value % 256 ::
          0 :: 5 :: S.client_private_key % 256 :: (S.client_private_key / 256) % 256 ::
          sig_alg_code S.client_cert_sig_scheme.sig_alg :: st.digest % 256 ::
          (st.digest / 256) % 256 :: [] := by
      simp [s2n_client_cert_verify_send_impl, s2n_client_cert_verify_send_body,
        s2n_client_cert_verify_send_complete, hS, hasync, hback, hvS, hstS, hout,
        s2n_pkey_sign, s2n_hash_digest, hready, s2n_conn_update_required_handshake_hashes,
        s2n_stuffer_write_uint16, s2n_stuffer_write, u16_bytes, s2n_pkey_sign_bytes]
    rw [hdata] at hin
    have hread1 : s2n_stuffer_read_uint16 R.handshake_io_buf =
        some (S.client_cert_sig_scheme.iana_value,
          { R.handshake_io_buf with read_cursor := 2 }) := by
      rw [hin]
      simp [s2n_stuffer_read_uint16]
      omega
    have h2 : (s2n_client_cert_verify_recv_impl R).1 = .ok () := by
      simp only [s2n_client_cert_verify_recv_impl, hR, hvR, if_neg hvR, hread1, hfind]
      simp [s2n_client_cert_verify_recv_sig, hR, hin, hstR, s2n_stuffer_read_uint16,
        s2n_stuffer_raw_read, s2n_pkey_verify, s2n_hash_digest, hready, hkey,
        s2n_pkey_sign_bytes, s2n_conn_update_required_handshake_hashes]
    exact ⟨h1, h2⟩

/-- Witness for C1 at the concrete TLS 1.2 sender and receiver fixtures. -/
theorem claim_C1_roundtrip_witness :
    recv_ok_conn.handshake_io_buf =
      { data := (s2n_client_cert_verify_send_impl send_ok_conn).2.handshake_io_buf.data,
        read_cursor := 0 } ∧
    (s2n_client_cert_verify_send_impl send_ok_conn).1 = .ok () ∧
    (s2n_client_cert_verify_recv_impl recv_ok_conn).1 = .ok () :=
  ⟨rfl,
    claim_C1_roundtrip send_ok_conn recv_ok_conn hashes_ex hashes_ex sch_ex st_ex
      rfl rfl rfl rfl rfl
      (Or.inr ⟨by decide, by decide, rfl, by decide, rfl⟩)
      rfl rfl rfl rfl rfl⟩

end S2nCertVerify
